import Mathlib

/-! Formal model of the core pipeline logic of the epstein-dossier backend:
date reconciliation (`app/pipelines/date_extraction.py`), face detection,
dismissal filtering and identity clustering (`app/pipelines/faces.py`,
`app/services/chromadb.py`), and download dedup
(`app/pipelines/downloader.py`).  Python functions are embedded as
executable Lean definitions.  External collaborators that are not part of
the repository (the dateutil parser, the face-recognition library, the
ChromaDB index metric, sklearn's DBSCAN labelling, the filesystem and the
network) enter as explicit function parameters or, where a concrete
behaviour is required, as definitions modelled from the spec. -/

namespace DateExtraction

/-- ASCII whitespace, as matched by Python's regex whitespace class and
stripped by `str.strip()`. -/
def isWs (c : Char) : Bool :=
  c == ' ' || c == '\t' || c == '\n' || c == '\r' || c == '\x0b' || c == '\x0c'

/-- ASCII decimal digit, as matched by the regex digit class and by
`str.isdigit()` on ASCII input. -/
def isDigitC (c : Char) : Bool :=
  '0' ≤ c && c ≤ '9'

/-- Python `str.strip()`: drop leading and trailing whitespace. -/
def pyStrip (cs : List Char) : List Char :=
  ((cs.dropWhile isWs).reverse.dropWhile isWs).reverse

/-- Python `str.lower()` (ASCII case folding suffices for the inputs here). -/
def pyLower (cs : List Char) : List Char :=
  cs.map Char.toLower

/-- Character list of a string literal (regex pattern fragment). -/
def lit (s : String) : List Char :=
  s.data

/-- Consume an exact literal from the front of the input; return the rest. -/
def dropLit : List Char → List Char → Option (List Char)
  | [], cs => some cs
  | _ :: _, [] => none
  | l :: ls, c :: cs => if c = l then dropLit ls cs else none

/-- Consume one-or-more whitespace (regex whitespace-plus, greedy; the
continuations used here never start with whitespace, so greediness is
deterministic). -/
def dropWs1 : List Char → Option (List Char)
  | [] => none
  | c :: cs => if isWs c then some (cs.dropWhile isWs) else none

/-- Consume exactly `n` digits. -/
def dropDigits : Nat → List Char → Option (List Char)
  | 0, cs => some cs
  | _ + 1, [] => none
  | n + 1, c :: cs => if isDigitC c then dropDigits n cs else none

/-- Consume one-or-more digits (greedy; the continuations used here never
start with a digit, so greediness is deterministic). -/
def dropDigits1 : List Char → Option (List Char)
  | [] => none
  | c :: cs => if isDigitC c then some (cs.dropWhile isDigitC) else none

/-- Alternation of word literals.  No alternative used in the source
patterns is a prefix of another, so first-match order is immaterial. -/
def dropAlt : List (List Char) → List Char → Option (List Char)
  | [], _ => none
  | l :: ls, cs =>
    match dropLit l cs with
    | some rest => some rest
    | none => dropAlt ls cs

/-- Optionally consume a literal (regex question-mark, greedy; in the two
use sites the literal "s" is followed by end-of-input or whitespace, so
greediness is deterministic). -/
def dropOpt (l : List Char) (cs : List Char) : Option (List Char) :=
  match dropLit l cs with
  | some rest => some rest
  | none => some cs

/-- `re.match` of an end-anchored pattern succeeded: all input consumed. -/
def atEnd : Option (List Char) → Bool
  | some [] => true
  | _ => false

/-- `re.match` of an unanchored-suffix pattern succeeded: a prefix matched. -/
def matched : Option (List Char) → Bool
  | some _ => true
  | none => false

/-- Skip pattern: today / tomorrow / yesterday (each end-anchored). -/
def skipRelDay (cs : List Char) : Bool :=
  cs = lit "today" || cs = lit "tomorrow" || cs = lit "yesterday"

/-- Day-of-week names used by the skip patterns and the literal check. -/
def dayNames : List (List Char) :=
  [lit "monday", lit "tuesday", lit "wednesday", lit "thursday",
   lit "friday", lit "saturday", lit "sunday"]

/-- Skip pattern: a bare weekday name. -/
def skipDayName (cs : List Char) : Bool :=
  decide (cs ∈ dayNames)

/-- Skip pattern: (this|next|last) ws (week|month|year). -/
def skipThisNextLast (cs : List Char) : Bool :=
  atEnd (dropAlt [lit "this", lit "next", lit "last"] cs >>= dropWs1 >>=
    dropAlt [lit "week", lit "month", lit "year"])

/-- Skip pattern: "the" ws 4-digits "s" ("the 1990s"). -/
def skipDecade (cs : List Char) : Bool :=
  atEnd (dropLit (lit "the") cs >>= dropWs1 >>= dropDigits 4 >>= dropLit (lit "s"))

/-- Skip pattern: (early|late|mid) ws 4-digits optional "s". -/
def skipEarlyLateMid (cs : List Char) : Bool :=
  atEnd (dropAlt [lit "early", lit "late", lit "mid"] cs >>= dropWs1 >>=
    dropDigits 4 >>= dropOpt (lit "s"))

/-- Skip pattern: "about" ws 4-digits ws "through" (prefix match). -/
def skipAboutThrough (cs : List Char) : Bool :=
  matched (dropLit (lit "about") cs >>= dropWs1 >>= dropDigits 4 >>= dropWs1 >>=
    dropLit (lit "through"))

/-- Skip pattern: "between" ws "approximately" (prefix match). -/
def skipBetweenApprox (cs : List Char) : Bool :=
  matched (dropLit (lit "between") cs >>= dropWs1 >>= dropLit (lit "approximately"))

/-- Skip pattern: "at" ws "least" ws 4-digits. -/
def skipAtLeast (cs : List Char) : Bool :=
  atEnd (dropLit (lit "at") cs >>= dropWs1 >>= dropLit (lit "least") >>= dropWs1 >>=
    dropDigits 4)

/-- Skip pattern: "about" ws 4-digits. -/
def skipAbout (cs : List Char) : Bool :=
  atEnd (dropLit (lit "about") cs >>= dropWs1 >>= dropDigits 4)

/-- Unit words shared by the two N-units skip patterns. -/
def unitWords : List (List Char) :=
  [lit "day", lit "week", lit "month", lit "year"]

/-- Skip pattern: spelled-out count then a unit word (prefix match; the
trailing optional "s" of the source pattern cannot affect success of a
prefix match). -/
def skipWordUnits (cs : List Char) : Bool :=
  matched (dropAlt
    [lit "one", lit "two", lit "three", lit "four", lit "five",
     lit "six", lit "seven", lit "eight", lit "nine", lit "ten"] cs >>=
    dropWs1 >>= dropAlt unitWords)

/-- Skip pattern: digits ws unit optional "s" ws (ago|later|before|after)
(prefix match). -/
def skipUnitsAgo (cs : List Char) : Bool :=
  matched (dropDigits1 cs >>= dropWs1 >>= dropAlt unitWords >>= dropOpt (lit "s") >>=
    dropWs1 >>= dropAlt [lit "ago", lit "later", lit "before", lit "after"])

/-- Disjunction of all SKIP_PATTERNS of `date_extraction.py` (the input is
already stripped and lowercased, so IGNORECASE is absorbed). -/
def skipAnyPattern (cs : List Char) : Bool :=
  skipRelDay cs || skipDayName cs || skipThisNextLast cs || skipDecade cs ||
  skipEarlyLateMid cs || skipAboutThrough cs || skipBetweenApprox cs ||
  skipAtLeast cs || skipAbout cs || skipWordUnits cs || skipUnitsAgo cs

/-- Embeds `is_valid_date_string`: strip and lowercase, reject any skip
pattern, bare day names, and bare relative words. -/
def is_valid_date_string (text : String) : Bool :=
  let t := pyLower (pyStrip text.data)
  if skipAnyPattern t then false
  else if t ∈ dayNames then false
  else if t ∈ [lit "today", lit "tomorrow", lit "yesterday", lit "now",
               lit "later", lit "earlier"] then false
  else true

/-- A Python `datetime.date` value (year, month, day). -/
structure PyDate where
  year : Nat
  month : Nat
  day : Nat
deriving DecidableEq

/-- Python date `<`: lexicographic on (year, month, day). -/
def PyDate.lt (a b : PyDate) : Prop :=
  a.year < b.year ∨ (a.year = b.year ∧
    (a.month < b.month ∨ (a.month = b.month ∧ a.day < b.day)))

/-- Python date `≤`: lexicographic on (year, month, day). -/
def PyDate.le (a b : PyDate) : Prop :=
  a.year < b.year ∨ (a.year = b.year ∧
    (a.month < b.month ∨ (a.month = b.month ∧ a.day ≤ b.day)))

instance (a b : PyDate) : Decidable (PyDate.lt a b) := by
  unfold PyDate.lt; infer_instance

instance (a b : PyDate) : Decidable (PyDate.le a b) := by
  unfold PyDate.le; infer_instance

/-- Python `min` over a nonempty list: keep the current value unless the
next element is strictly smaller. -/
def pyListMin : PyDate → List PyDate → PyDate
  | acc, [] => acc
  | acc, d :: ds => pyListMin (if PyDate.lt d acc then d else acc) ds

/-- Python `max` over a nonempty list: keep the current value unless the
next element is strictly larger. -/
def pyListMax : PyDate → List PyDate → PyDate
  | acc, [] => acc
  | acc, d :: ds => pyListMax (if PyDate.lt acc d then d else acc) ds

/-- Numeric value of a digit string. -/
def digitsToNat (cs : List Char) : Nat :=
  cs.foldl (fun n c => 10 * n + (c.toNat - 48)) 0

/-- Modelled from the spec: the external `dateutil` fuzzy parser
(`dateutil.parser.parse(text, fuzzy=True, default=datetime(1900, 1, 1))`),
which is not part of this repository.  Only its behaviour on the input
exercised by the spec's date-reconciliation example is modelled; every
other input is mapped to a parse failure. -/
def dateutil_parse : String → Option PyDate
  | "March 3, 1998" => some ⟨1998, 3, 3⟩
  | _ => none

/-- Embeds `parse_date_safe`: validity filter, the bare 4-digit-year path
defaulting to January 1, the dateutil path, and the year range check
(`result.year < 1900 or result.year > 2025`). -/
def parse_date_safe (text : String) : Option PyDate :=
  if is_valid_date_string text = false then none
  else
    let ts := pyStrip text.data
    if ts.length = 4 ∧ ts.all isDigitC then
      let year := digitsToNat ts
      if 1900 ≤ year ∧ year ≤ 2025 then some ⟨year, 1, 1⟩ else none
    else
      match dateutil_parse text with
      | none => none
      | some d => if d.year < 1900 ∨ 2025 < d.year then none else some d

/-- Embeds `extract_dates_for_document`: parse every distinct DATE mention
text, and return the min and max of the successful parses, or no dates at
all when none parse. -/
def extract_dates_for_document (date_names : List String) :
    Option PyDate × Option PyDate :=
  match date_names.filterMap parse_date_safe with
  | [] => (none, none)
  | d :: ds => (some (pyListMin d ds), some (pyListMax d ds))

end DateExtraction

namespace Faces

/-- A face embedding vector (ChromaDB stores lists of floats; modelled
with rationals). -/
abbrev Vec := List ℚ

/-- The dismissal threshold of `ChromaDBService.is_similar_to_dismissed`
(its `threshold` default, 0.4). -/
def dismissal_threshold : ℚ := 2 / 5

/-- Embeds `ChromaDBService.is_similar_to_dismissed`: false when the
dismissed collection is empty, otherwise compare the nearest-neighbour
distance (the single result of `dismissed_collection.query(n_results=1)`,
i.e. the minimum over the dismissed set under the index's metric `dist`)
strictly against the threshold. -/
def is_similar_to_dismissed (dist : Vec → Vec → ℚ) (dismissed : List Vec)
    (embedding : Vec) (threshold : ℚ) : Bool :=
  if dismissed.length = 0 then false
  else
    match (dismissed.map (fun d => dist embedding d)).min? with
    | some d0 => decide (d0 < threshold)
    | none => false

/-- One face location reported by the external face-recognition library
for one image: the bounding box in (top, right, bottom, left) order, the
encoding vector, an opaque fresh id for the detection (`uuid4` in the
source), and whether the later per-face persistence work for this
detection raises an exception in an external call (crop saving, index or
graph write). -/
structure RawLoc where
  top : Int
  right : Int
  bottom : Int
  left : Int
  enc : Vec
  eid : Nat
  cropFails : Bool
deriving DecidableEq

/-- One entry of the list built by `detect_faces_in_image`: bounding box,
encoding and computed pixel size, carrying the detection's opaque id and
failure flag. -/
structure FaceData where
  top : Int
  right : Int
  bottom : Int
  left : Int
  encoding : Vec
  size : Int
  eid : Nat
  cropFails : Bool
deriving DecidableEq

/-- Bounding-box area `(bottom - top) * (right - left)` as computed in
`detect_faces_in_image`. -/
def face_size (l : RawLoc) : Int :=
  (l.bottom - l.top) * (l.right - l.left)

/-- The dictionary appended for a kept detection. -/
def mkFaceData (l : RawLoc) : FaceData :=
  { top := l.top, right := l.right, bottom := l.bottom, left := l.left,
    encoding := l.enc, size := face_size l, eid := l.eid,
    cropFails := l.cropFails }

/-- Embeds `FaceProcessor.detect_faces_in_image`: empty when the
face-recognition capability is unavailable; otherwise keep each reported
location unless its computed size is below 1000 pixels.  (A load or
detection error in the library is caught and yields the empty list, which
the input can equally represent by an empty location list.) -/
def detect_faces_in_image (avail : Bool) (locs : List RawLoc) : List FaceData :=
  if avail = false then []
  else locs.filterMap (fun l =>
    if face_size l < 1000 then none else some (mkFaceData l))

/-- The catalog fields of one document relevant to the face stage. -/
structure Doc where
  id : Nat
  has_images : Bool
  image_count : Nat
  ocr_status : String
  face_status : String
deriving DecidableEq

/-- One file of the document's image directory: whether its suffix is an
admissible image extension, and the face locations the external detector
reports for it. -/
structure ImageFile where
  extOk : Bool
  locs : List RawLoc
deriving DecidableEq

/-- A document together with the environment the face stage sees for it:
whether its image directory exists and the directory's files. -/
structure DocInput where
  doc : Doc
  dirExists : Bool
  images : List ImageFile
deriving DecidableEq

/-- A `Face` row as added to the database session. -/
structure FaceRow where
  document_id : Nat
  bbox_top : Int
  bbox_right : Int
  bbox_bottom : Int
  bbox_left : Int
  face_size : Int
  embedding_id : Nat
deriving DecidableEq

/-- One `chromadb.add_face_embedding` call. -/
structure EmbAdd where
  embedding_id : Nat
  embedding : Vec
  document_id : Nat
deriving DecidableEq

/-- The Face row created for a kept detection of a document. -/
def faceRowOf (docId : Nat) (f : FaceData) : FaceRow :=
  { document_id := docId, bbox_top := f.top, bbox_right := f.right,
    bbox_bottom := f.bottom, bbox_left := f.left, face_size := f.size,
    embedding_id := f.eid }

/-- The vector-index write performed for a kept detection of a document. -/
def embAddOf (docId : Nat) (f : FaceData) : EmbAdd :=
  { embedding_id := f.eid, embedding := f.encoding, document_id := docId }

/-- The session effects accumulated during one document's face attempt:
Face rows added (and flushed), vector-index writes performed, and the
running face count. -/
structure Sess where
  rows : List FaceRow
  embAdds : List EmbAdd
  count : Nat
deriving DecidableEq

/-- The per-face body of `process_document`'s inner loop: skip a detection
similar to a dismissed embedding; otherwise save the crop (which may
raise), add the Face row, and store the embedding.  `Except.error` carries
the session effects already performed when an exception is raised. -/
def processFace (dist : Vec → Vec → ℚ) (dismissed : List Vec) (docId : Nat)
    (s : Sess) (f : FaceData) : Except Sess Sess :=
  if is_similar_to_dismissed dist dismissed f.encoding dismissal_threshold then
    .ok s
  else if f.cropFails then
    .error s
  else
    .ok { rows := s.rows ++ [faceRowOf docId f],
          embAdds := s.embAdds ++ [embAddOf docId f],
          count := s.count + 1 }

/-- The faces loop over one image's detections, aborting at the first
exception. -/
def processFaces (dist : Vec → Vec → ℚ) (dismissed : List Vec) (docId : Nat) :
    List FaceData → Sess → Except Sess Sess
  | [], s => .ok s
  | f :: fs, s =>
    match processFace dist dismissed docId s f with
    | .ok s' => processFaces dist dismissed docId fs s'
    | .error s' => .error s'

/-- The image loop of `process_document`: skip files without an admissible
image suffix, detect faces in the rest, and run the per-face loop,
aborting everything at the first exception. -/
def processImages (dist : Vec → Vec → ℚ) (dismissed : List Vec) (docId : Nat) :
    List ImageFile → Sess → Except Sess Sess
  | [], s => .ok s
  | img :: rest, s =>
    if img.extOk = false then processImages dist dismissed docId rest s
    else
      match processFaces dist dismissed docId (detect_faces_in_image true img.locs) s with
      | .ok s' => processImages dist dismissed docId rest s'
      | .error s' => .error s'

/-- The outcome of `process_document` for one document: the face status
written on the document, the session effects of the attempt, and the
returned face count. -/
structure DocResult where
  status : String
  rows : List FaceRow
  embAdds : List EmbAdd
  count : Nat
deriving DecidableEq

/-- Embeds `FaceProcessor.process_document`: `skipped` when the capability
is unavailable, vacuous completion for documents without images or without
an image directory, otherwise the image loop; an exception inside the loop
sets the status to `failed` and returns count 0 while keeping the session
effects already performed. -/
def process_document (avail : Bool) (dist : Vec → Vec → ℚ)
    (dismissed : List Vec) (inp : DocInput) : DocResult :=
  if avail = false then
    { status := "skipped", rows := [], embAdds := [], count := 0 }
  else if inp.doc.has_images = false ∨ inp.doc.image_count = 0 then
    { status := "completed", rows := [], embAdds := [], count := 0 }
  else if inp.dirExists = false then
    { status := "completed", rows := [], embAdds := [], count := 0 }
  else
    match processImages dist dismissed inp.doc.id inp.images ⟨[], [], 0⟩ with
    | .ok s => { status := "completed", rows := s.rows, embAdds := s.embAdds,
                 count := s.count }
    | .error s => { status := "failed", rows := s.rows, embAdds := s.embAdds,
                    count := 0 }

/-- The summary dictionary returned by `process_all`. -/
structure RunResults where
  total : Nat
  processed : Nat
  failed : Nat
  faces_found : Nat
deriving DecidableEq

/-- Rows and vector-index writes persisted by the run (the per-document
`db.commit()` persists the session rows of each attempt; index writes are
immediate). -/
structure Store where
  committedRows : List FaceRow
  committedEmbs : List EmbAdd
deriving DecidableEq

/-- The observable outcome of one `process_all` run: the summary, the face
status of every input document after the run (in input order), and the
persisted facts. -/
structure RunOut where
  results : RunResults
  statuses : List (Nat × String)
  store : Store
deriving DecidableEq

/-- The candidate query of `process_all`: OCR completed, has images, and
face status still pending unless `reprocess`. -/
def selectCandidates (reprocess : Bool) (docs : List DocInput) : List DocInput :=
  docs.filter (fun d =>
    d.doc.ocr_status = "completed" ∧ d.doc.has_images = true ∧
    (reprocess = true ∨ d.doc.face_status = "pending"))

/-- The `if limit: query.limit(limit)` clause (a limit of 0 is falsy in
Python and imposes no limit). -/
def applyLimit (limit : Option Nat) (ds : List DocInput) : List DocInput :=
  match limit with
  | none => ds
  | some n => if n = 0 then ds else ds.take n

/-- Embeds `FaceProcessor.process_all`.  When the capability is
unavailable it returns the zero summary immediately, touching no document.
Otherwise each candidate is processed and committed individually; a
document's outcome depends only on its own input, so the final status of
a document is that of its own attempt when it is a candidate and its prior
status otherwise. -/
def process_all (avail : Bool) (dist : Vec → Vec → ℚ) (dismissed : List Vec)
    (reprocess : Bool) (limit : Option Nat) (docs : List DocInput) : RunOut :=
  if avail = false then
    { results := ⟨0, 0, 0, 0⟩,
      statuses := docs.map (fun d => (d.doc.id, d.doc.face_status)),
      store := ⟨[], []⟩ }
  else
    let cands := applyLimit limit (selectCandidates reprocess docs)
    let outs := cands.map (fun c => process_document true dist dismissed c)
    { results :=
        { total := cands.length,
          processed := (outs.filter (fun r => r.status = "completed")).length,
          failed := (outs.filter (fun r => ¬ r.status = "completed")).length,
          faces_found :=
            ((outs.filter (fun r => r.status = "completed")).map
              (fun r => r.count)).sum },
      statuses := docs.map (fun d =>
        (d.doc.id,
         if d ∈ cands then (process_document true dist dismissed d).status
         else d.doc.face_status)),
      store :=
        { committedRows := outs.flatMap (fun r => r.rows),
          committedEmbs := outs.flatMap (fun r => r.embAdds) } }

/-- The detections the per-document loop iterates over for a list of
image files: those of admissible files, after the detector's size
filter. -/
def imgsDetections (imgs : List ImageFile) : List FaceData :=
  (imgs.filter (fun img => img.extOk = true)).flatMap
    (fun img => detect_faces_in_image true img.locs)

/-- All detections the per-document loop iterates over. -/
def allDetections (inp : DocInput) : List FaceData :=
  imgsDetections inp.images

/-- The session effects present when a loop returns, whether normally or
through an exception. -/
def sessOf : Except Sess Sess → Sess
  | .ok s => s
  | .error s => s

/-- A `Face` table row as seen by `cluster_faces`. -/
structure FaceRec where
  id : Nat
  document_id : Nat
  face_size : Option Int
  embedding_id : Option Nat
  cluster_id : Option Nat
deriving DecidableEq

/-- A `FaceCluster` row created by `cluster_faces`. -/
structure ClusterRec where
  id : Nat
  representative_face_id : Nat
  face_count : Nat
  document_count : Nat
deriving DecidableEq

/-- The observable outcome of one `cluster_faces` run: the returned
summary, the created `FaceCluster` rows, the `cluster_id` mutations
performed (face id, new cluster id), and the face table after the run. -/
structure ClusterOut where
  result_clusters : Nat
  result_faces_clustered : Nat
  clusters : List ClusterRec
  updates : List (Nat × Nat)
  faces : List FaceRec
deriving DecidableEq

/-- The embedding-fetch loop body: `chromadb.get_embedding` for one face,
pairing its id with its vector; `none` (missing id or missing embedding in
the result) drops the face from the batch. -/
def fetchPair (fetch : Nat → Option Vec) (f : FaceRec) : Option (Nat × Vec) :=
  match f.embedding_id with
  | none => none
  | some e =>
    match fetch e with
    | none => none
    | some v => some (f.id, v)

/-- Distinct elements of a list in first-occurrence order (Python dict /
defaultdict insertion order). -/
def firstOccs (ls : List Int) : List Int :=
  ls.foldl (fun acc l => if l ∈ acc then acc else acc ++ [l]) []

/-- Distinct elements of a list of naturals, in first-occurrence order
(`set(...)` is used only for its size, so order is immaterial). -/
def distinctNats (ls : List Nat) : List Nat :=
  ls.foldl (fun acc l => if l ∈ acc then acc else acc ++ [l]) []

/-- The `cluster_assignments` grouping: zip face ids with DBSCAN labels
(`zip` truncates to the shorter list, as in Python), drop noise labels
(negative), and group ids by label in label first-occurrence order. -/
def assignmentsFor (pairs : List (Nat × Vec)) (labels : List Int) :
    List (Int × List Nat) :=
  let pos := (List.zip (pairs.map Prod.fst) labels).filter (fun p => 0 ≤ p.2)
  (firstOccs (pos.map Prod.snd)).map (fun l =>
    (l, (pos.filter (fun p => p.2 = l)).map Prod.fst))

/-- Python `max(cluster_faces, key=lambda f: f.face_size or 0)` over a
nonempty list: keep the current value unless the next element's key is
strictly larger, so the first maximal element wins. -/
def pyMaxBySize : FaceRec → List FaceRec → FaceRec
  | acc, [] => acc
  | acc, f :: fs =>
    pyMaxBySize (if acc.face_size.getD 0 < f.face_size.getD 0 then f else acc) fs

/-- The cluster-creation loop of `cluster_faces`: for each assignment
group, select the member faces from the table, pick the largest face as
representative, count distinct owning documents, create the `FaceCluster`
row (ids are assigned sequentially by the database), and record the
`cluster_id` mutation of every member.  (An empty selection cannot occur
for groups built from table rows; Python's `max` would raise there.) -/
def buildClusters (allFaces : List FaceRec) :
    List (Int × List Nat) → Nat → List ClusterRec × List (Nat × Nat)
  | [], _ => ([], [])
  | (_, ids) :: rest, nid =>
    match allFaces.filter (fun f => f.id ∈ ids) with
    | [] => buildClusters allFaces rest nid
    | f :: fs =>
      let rep := pyMaxBySize f fs
      let sel := f :: fs
      let c : ClusterRec :=
        { id := nid, representative_face_id := rep.id,
          face_count := ids.length,
          document_count := (distinctNats (sel.map (fun g => g.document_id))).length }
      let out := buildClusters allFaces rest (nid + 1)
      (c :: out.1, sel.map (fun g => (g.id, nid)) ++ out.2)

/-- First recorded `cluster_id` mutation for a face id. -/
def findUpdate (ups : List (Nat × Nat)) (fid : Nat) : Option Nat :=
  match ups with
  | [] => none
  | (i, c) :: rest => if i = fid then some c else findUpdate rest fid

/-- Apply the recorded mutations to one face row. -/
def applyUpdates (ups : List (Nat × Nat)) (f : FaceRec) : FaceRec :=
  match findUpdate ups f.id with
  | some cid => { f with cluster_id := some cid }
  | none => f

/-- A `cluster_faces` run that creates nothing and touches no face. -/
def noopClusterOut (allFaces : List FaceRec) : ClusterOut :=
  { result_clusters := 0, result_faces_clustered := 0, clusters := [],
    updates := [], faces := allFaces }

/-- Embeds `FaceProcessor.cluster_faces`: no-op when the capability is
unavailable, when fewer than 2 faces have an embedding id, or when fewer
than 2 embeddings are actually fetched; otherwise label the fetched
vectors with the external DBSCAN implementation `dbscan`, group by label,
and create the cluster rows and `cluster_id` mutations. -/
def cluster_faces (avail : Bool) (fetch : Nat → Option Vec)
    (dbscan : List Vec → List Int) (nextClusterId : Nat)
    (allFaces : List FaceRec) : ClusterOut :=
  if avail = false then noopClusterOut allFaces
  else
    let faces := allFaces.filter (fun f => f.embedding_id.isSome)
    if faces.length < 2 then noopClusterOut allFaces
    else
      let pairs := faces.filterMap (fetchPair fetch)
      if pairs.length < 2 then noopClusterOut allFaces
      else
        let labels := dbscan (pairs.map Prod.snd)
        let asg := assignmentsFor pairs labels
        let built := buildClusters allFaces asg nextClusterId
        { result_clusters := asg.length,
          result_faces_clustered := (asg.map (fun a => a.2.length)).sum,
          clusters := built.1,
          updates := built.2,
          faces := allFaces.map (applyUpdates built.2) }

end Faces

namespace Downloader

/-- Raw bytes (each entry one byte value). -/
abbrev Bytes := List Nat

/-- The PDF magic header `%PDF-` compared against the first five bytes. -/
def pdfMagic : Bytes := [37, 80, 68, 70, 45]

/-- One discovered PDF target. -/
structure PdfInfo where
  filename : String
  url : String
  title : String
deriving DecidableEq

/-- A `Document` catalog row as touched by the downloader. -/
structure DocRec where
  filename : String
  title : String
  source_url : String
  download_status : String
  file_hash : String
  file_size : Nat
deriving DecidableEq

/-- The state `download_one` acts on: the content store, the document
table, and the run counters. -/
structure DlState where
  files : List (String × Bytes)
  docs : List DocRec
  skipped : Nat
  downloaded : Nat
  failed : Nat
deriving DecidableEq

/-- Content-store read: the stored bytes of a filename, if present. -/
def lookupFile (files : List (String × Bytes)) (name : String) : Option Bytes :=
  match files with
  | [] => none
  | (n, bs) :: rest => if n = name then some bs else lookupFile rest name

/-- Content-store write (overwrite or append). -/
def writeFile (files : List (String × Bytes)) (name : String) (bs : Bytes) :
    List (String × Bytes) :=
  if files.any (fun p => p.1 = name) then
    files.map (fun p => if p.1 = name then (name, bs) else p)
  else files ++ [(name, bs)]

/-- The post-fetch catalog upsert: update the row with this filename to
status `downloaded` with the new hash and size, or insert a fresh row. -/
def upsertDoc (docs : List DocRec) (pdf : PdfInfo) (h : String) (sz : Nat) :
    List DocRec :=
  if docs.any (fun d => d.filename = pdf.filename) then
    docs.map (fun d =>
      if d.filename = pdf.filename then
        { d with download_status := "downloaded", file_hash := h, file_size := sz }
      else d)
  else
    docs ++ [{ filename := pdf.filename, title := pdf.title,
               source_url := pdf.url, download_status := "downloaded",
               file_hash := h, file_size := sz }]

/-- The fetch branch of `download_one`: `net` models
`download_pdf_with_browser` (None on failure), `hashFn` the SHA-256 hex
digest.  Python's `if content and file_hash` treats empty bytes and the
empty hash as failure. -/
def fetchAndStore (hashFn : Bytes → String) (pdf : PdfInfo) (st : DlState)
    (res : Option Bytes) : DlState :=
  match res with
  | some content =>
    if content ≠ [] ∧ hashFn content ≠ "" then
      { files := writeFile st.files pdf.filename content,
        docs := upsertDoc st.docs pdf (hashFn content) content.length,
        skipped := st.skipped, downloaded := st.downloaded + 1,
        failed := st.failed }
    else { st with failed := st.failed + 1 }
  | none => { st with failed := st.failed + 1 }

/-- Embeds the `download_one` closure of `PDFDownloader.download_all`:
if the target file already exists in the content store and its first five
bytes are the PDF magic header, count it as skipped and return without any
fetch and without touching the catalog; otherwise fetch and store.  The
returned flag records whether a network fetch was performed. -/
def download_one (net : String → Option Bytes) (hashFn : Bytes → String)
    (pdf : PdfInfo) (st : DlState) : DlState × Bool :=
  match lookupFile st.files pdf.filename with
  | some content =>
    if content.take 5 = pdfMagic then
      ({ st with skipped := st.skipped + 1 }, false)
    else (fetchAndStore hashFn pdf st (net pdf.url), true)
  | none => (fetchAndStore hashFn pdf st (net pdf.url), true)

end Downloader

namespace DateExtraction

theorem PyDate.le_refl (a : PyDate) : PyDate.le a a := by
  unfold PyDate.le; omega

theorem PyDate.lt_le {a b : PyDate} (h : PyDate.lt a b) : PyDate.le a b := by
  unfold PyDate.lt at h; unfold PyDate.le; omega

theorem PyDate.le_of_not_lt {a b : PyDate} (h : ¬ PyDate.lt a b) :
    PyDate.le b a := by
  unfold PyDate.lt at h; unfold PyDate.le; omega

theorem PyDate.le_trans {a b c : PyDate} (h1 : PyDate.le a b)
    (h2 : PyDate.le b c) : PyDate.le a c := by
  unfold PyDate.le at h1 h2 ⊢; omega

theorem pyListMin_mem (ds : List PyDate) :
    ∀ acc, pyListMin acc ds ∈ acc :: ds := by
  induction ds with
  | nil => intro acc; simp [pyListMin]
  | cons d ds ih =>
    intro acc
    rw [pyListMin]
    by_cases h : PyDate.lt d acc
    · simp only [if_pos h]
      have := ih d
      rcases List.mem_cons.mp this with h' | h'
      · simp [h']
      · simp [List.mem_cons, h']
    · simp only [if_neg h]
      have := ih acc
      rcases List.mem_cons.mp this with h' | h'
      · simp [h']
      · simp [List.mem_cons, h']

theorem pyListMin_le (ds : List PyDate) :
    ∀ acc x, x ∈ acc :: ds → PyDate.le (pyListMin acc ds) x := by
  induction ds with
  | nil =>
    intro acc x hx
    rcases List.mem_cons.mp hx with h | h
    · subst h; simp [pyListMin, PyDate.le_refl]
    · simp at h
  | cons d ds ih =>
    intro acc x hx
    rw [pyListMin]
    by_cases h : PyDate.lt d acc
    · simp only [if_pos h]
      rcases List.mem_cons.mp hx with rfl | h'
      · exact PyDate.le_trans (ih d d (by simp)) (PyDate.lt_le h)
      · exact ih d x h'
    · simp only [if_neg h]
      rcases List.mem_cons.mp hx with rfl | h'
      · exact ih _ _ (by simp)
      · rcases List.mem_cons.mp h' with rfl | h''
        · exact PyDate.le_trans (ih acc acc (by simp)) (PyDate.le_of_not_lt h)
        · exact ih acc x (by simp [h''])

theorem pyListMax_mem (ds : List PyDate) :
    ∀ acc, pyListMax acc ds ∈ acc :: ds := by
  induction ds with
  | nil => intro acc; simp [pyListMax]
  | cons d ds ih =>
    intro acc
    rw [pyListMax]
    by_cases h : PyDate.lt acc d
    · simp only [if_pos h]
      have := ih d
      rcases List.mem_cons.mp this with h' | h'
      · simp [h']
      · simp [List.mem_cons, h']
    · simp only [if_neg h]
      have := ih acc
      rcases List.mem_cons.mp this with h' | h'
      · simp [h']
      · simp [List.mem_cons, h']

theorem pyListMax_ge (ds : List PyDate) :
    ∀ acc x, x ∈ acc :: ds → PyDate.le x (pyListMax acc ds) := by
  induction ds with
  | nil =>
    intro acc x hx
    rcases List.mem_cons.mp hx with h | h
    · subst h; simp [pyListMax, PyDate.le_refl]
    · simp at h
  | cons d ds ih =>
    intro acc x hx
    rw [pyListMax]
    by_cases h : PyDate.lt acc d
    · simp only [if_pos h]
      rcases List.mem_cons.mp hx with rfl | h'
      · exact PyDate.le_trans (PyDate.lt_le h) (ih d d (by simp))
      · exact ih d x h'
    · simp only [if_neg h]
      rcases List.mem_cons.mp hx with rfl | h'
      · exact ih _ _ (by simp)
      · rcases List.mem_cons.mp h' with rfl | h''
        · exact PyDate.le_trans (PyDate.le_of_not_lt h) (ih acc acc (by simp))
        · exact ih acc x (by simp [h''])

end DateExtraction

namespace DateExtraction

/-- C8 (counterexample): the claim says a parse whose result year equals
1900 is excluded from the earliest/latest computation, but the source's
range check is `result.year < 1900 or result.year > 2025`, which keeps
year 1900: the mention text "1900" parses to 1900-01-01 and becomes the
document's earliest and latest date. -/
theorem C8_counterexample :
    parse_date_safe "1900" = some ⟨1900, 1, 1⟩ ∧
    extract_dates_for_document ["1900"] =
      (some ⟨1900, 1, 1⟩, some ⟨1900, 1, 1⟩) := by
  constructor <;> rfl

/-- The year range check of `parse_date_safe`'s dateutil branch keeps only
years in 1900..2025. -/
theorem range_check_bounds {d0 d : PyDate}
    (h : (if d0.year < 1900 ∨ 2025 < d0.year then none else some d0) = some d) :
    1900 ≤ d.year ∧ d.year ≤ 2025 := by
  split at h
  · exact absurd h (by simp)
  · rw [Option.some.injEq] at h
    subst h
    omega

/-- C8 (amended): a successful parse is kept exactly when its year lies in
1900..2025; in particular a result year of exactly 1900 (the fuzzy-parse
sentinel default) is NOT excluded. -/
theorem C8_year1900_retained (text : String) (d : PyDate)
    (h : parse_date_safe text = some d) :
    1900 ≤ d.year ∧ d.year ≤ 2025 := by
  unfold parse_date_safe at h
  split at h
  · exact absurd h (by simp)
  · dsimp only at h
    split at h
    · split at h
      · rename_i hrange
        rw [Option.some.injEq] at h
        subst h
        exact hrange
      · exact absurd h (by simp)
    · split at h
      · exact absurd h (by simp)
      · exact range_check_bounds h

/-- Witness for C8_year1900_retained at the mention text "1997". -/
theorem C8_year1900_retained_witness :
    1900 ≤ (PyDate.mk 1997 1 1).year ∧ (PyDate.mk 1997 1 1).year ≤ 2025 :=
  C8_year1900_retained "1997" ⟨1997, 1, 1⟩ (by rfl)

/-- C9: for every document, the derived earliest/latest dates are the
minimum and maximum of the valid parses of its distinct DATE mention
texts (both are themselves valid parses and bound every valid parse), or
both unset when no text parses; and the spec's example input
["1997", "March 3, 1998", "the 1990s", "yesterday"] yields earliest
1997-01-01 and latest 1998-03-03. -/
theorem C9_earliest_latest_minmax :
    (∀ names : List String,
      (names.filterMap parse_date_safe = [] →
        extract_dates_for_document names = (none, none)) ∧
      (∀ d ds, names.filterMap parse_date_safe = d :: ds →
        extract_dates_for_document names =
          (some (pyListMin d ds), some (pyListMax d ds)) ∧
        pyListMin d ds ∈ d :: ds ∧ pyListMax d ds ∈ d :: ds ∧
        ∀ x ∈ d :: ds, PyDate.le (pyListMin d ds) x ∧
          PyDate.le x (pyListMax d ds))) ∧
    extract_dates_for_document
        ["1997", "March 3, 1998", "the 1990s", "yesterday"] =
      (some ⟨1997, 1, 1⟩, some ⟨1998, 3, 3⟩) := by
  constructor
  · intro names
    constructor
    · intro h
      unfold extract_dates_for_document
      rw [h]
    · intro d ds h
      refine ⟨?_, pyListMin_mem ds d, pyListMax_mem ds d,
        fun x hx => ⟨pyListMin_le ds d x hx, pyListMax_ge ds d x hx⟩⟩
      unfold extract_dates_for_document
      rw [h]
  · rfl

/-- Witness for C9_earliest_latest_minmax at the spec's example input. -/
theorem C9_earliest_latest_minmax_witness :
    (extract_dates_for_document
        ["1997", "March 3, 1998", "the 1990s", "yesterday"] =
      (some (pyListMin ⟨1997, 1, 1⟩ [⟨1998, 3, 3⟩]),
       some (pyListMax ⟨1997, 1, 1⟩ [⟨1998, 3, 3⟩]))) ∧
    pyListMin ⟨1997, 1, 1⟩ [⟨1998, 3, 3⟩] ∈
      (⟨1997, 1, 1⟩ : PyDate) :: [⟨1998, 3, 3⟩] ∧
    pyListMax ⟨1997, 1, 1⟩ [⟨1998, 3, 3⟩] ∈
      (⟨1997, 1, 1⟩ : PyDate) :: [⟨1998, 3, 3⟩] ∧
    ∀ x ∈ (⟨1997, 1, 1⟩ : PyDate) :: [⟨1998, 3, 3⟩],
      PyDate.le (pyListMin ⟨1997, 1, 1⟩ [⟨1998, 3, 3⟩]) x ∧
      PyDate.le x (pyListMax ⟨1997, 1, 1⟩ [⟨1998, 3, 3⟩]) :=
  (C9_earliest_latest_minmax.1
      ["1997", "March 3, 1998", "the 1990s", "yesterday"]).2
    ⟨1997, 1, 1⟩ [⟨1998, 3, 3⟩] (by rfl)

end DateExtraction

namespace Faces

/-- C10: every detection returned by `detect_faces_in_image` has
bounding-box area `(bottom - top) * (right - left)` of at least 1000
pixels, and when the capability is available the returned list is exactly
the reported locations of area at least 1000, in order: smaller
detections are silently discarded before any persistence. -/
theorem C10_small_detections_discarded (avail : Bool) (locs : List RawLoc) :
    (∀ f ∈ detect_faces_in_image avail locs, 1000 ≤ f.size) ∧
    (avail = true →
      detect_faces_in_image avail locs =
        (locs.filter (fun l => 1000 ≤ face_size l)).map mkFaceData) := by
  constructor
  · intro f hf
    unfold detect_faces_in_image at hf
    split at hf
    · simp at hf
    · rcases List.mem_filterMap.mp hf with ⟨l, _, hsome⟩
      split at hsome
      · exact absurd hsome (by simp)
      · rename_i hge
        rw [Option.some.injEq] at hsome
        subst hsome
        simp only [mkFaceData]
        omega
  · intro ha
    subst ha
    unfold detect_faces_in_image
    rw [if_neg (by simp)]
    induction locs with
    | nil => rfl
    | cons l ls ih =>
      by_cases h : face_size l < 1000
      · have h2 : ¬ 1000 ≤ face_size l := by omega
        simp [List.filterMap_cons, List.filter_cons, h, h2, ih]
      · have h2 : 1000 ≤ face_size l := by omega
        simp [List.filterMap_cons, List.filter_cons, h, h2, ih]

/-- Witness for C10_small_detections_discarded: a 1600-pixel detection is
kept (with its size bound) and a 100-pixel one is dropped. -/
theorem C10_small_detections_discarded_witness :
    1000 ≤ (mkFaceData ⟨0, 40, 40, 0, [], 1, false⟩).size ∧
    detect_faces_in_image true
        [⟨0, 40, 40, 0, [], 1, false⟩, ⟨0, 10, 10, 0, [], 2, false⟩] =
      ([(⟨0, 40, 40, 0, [], 1, false⟩ : RawLoc),
        ⟨0, 10, 10, 0, [], 2, false⟩].filter
          (fun l => 1000 ≤ face_size l)).map mkFaceData :=
  ⟨(C10_small_detections_discarded true [⟨0, 40, 40, 0, [], 1, false⟩]).1
      (mkFaceData ⟨0, 40, 40, 0, [], 1, false⟩) (by decide),
   (C10_small_detections_discarded true
      [⟨0, 40, 40, 0, [], 1, false⟩, ⟨0, 10, 10, 0, [], 2, false⟩]).2 rfl⟩

end Faces

namespace Faces

/-- C2 (counterexample): with the face-recognition capability unavailable,
`process_all` returns the zero summary immediately without touching any
document, so a candidate document (OCR completed, has images, face status
pending) keeps status "pending" — it is not set to "skipped". -/
theorem C2_counterexample :
    (process_all false (fun _ _ => 0) [] false none
        [⟨⟨1, true, 1, "completed", "pending"⟩, true, []⟩]).statuses =
      [(1, "pending")] ∧
    (1, "skipped") ∉ (process_all false (fun _ _ => 0) [] false none
        [⟨⟨1, true, 1, "completed", "pending"⟩, true, []⟩]).statuses := by
  constructor
  · rfl
  · decide

/-- C2 (amended): when the capability is unavailable, the stage run
returns zero totals and leaves every candidate document's status
unchanged (it stays `pending`); the distinct `skipped` status is written
only by the per-document routine, which the stage run never reaches in
that case. -/
theorem C2_unavailable_statuses_unchanged (dist : Vec → Vec → ℚ)
    (dismissed : List Vec) (reprocess : Bool) (limit : Option Nat)
    (docs : List DocInput) :
    (process_all false dist dismissed reprocess limit docs).statuses =
      docs.map (fun d => (d.doc.id, d.doc.face_status)) ∧
    (process_all false dist dismissed reprocess limit docs).results =
      ⟨0, 0, 0, 0⟩ ∧
    (process_all false dist dismissed reprocess limit docs).store = ⟨[], []⟩ ∧
    ∀ inp : DocInput,
      (process_document false dist dismissed inp).status = "skipped" :=
  ⟨rfl, rfl, rfl, fun _ => rfl⟩

end Faces

namespace Faces

/-- Every Face row present after the per-face loop was either present
before or stems from a listed detection whose dismissal check came back
false; likewise for vector-index writes. -/
theorem processFaces_rows_from_kept (dist : Vec → Vec → ℚ)
    (dismissed : List Vec) (docId : Nat) :
    ∀ (fs : List FaceData) (s : Sess),
      (∀ row ∈ (sessOf (processFaces dist dismissed docId fs s)).rows,
        row ∈ s.rows ∨ ∃ f ∈ fs,
          is_similar_to_dismissed dist dismissed f.encoding
            dismissal_threshold = false ∧
          row = faceRowOf docId f) ∧
      (∀ a ∈ (sessOf (processFaces dist dismissed docId fs s)).embAdds,
        a ∈ s.embAdds ∨ ∃ f ∈ fs,
          is_similar_to_dismissed dist dismissed f.encoding
            dismissal_threshold = false ∧
          a = embAddOf docId f) := by
  intro fs
  induction fs with
  | nil =>
    intro s
    exact ⟨fun row h => Or.inl h, fun a h => Or.inl h⟩
  | cons f fs ih =>
    intro s
    by_cases hsim : is_similar_to_dismissed dist dismissed f.encoding
        dismissal_threshold = true
    · have hstep : processFaces dist dismissed docId (f :: fs) s =
          processFaces dist dismissed docId fs s := by
        simp only [processFaces, processFace, if_pos hsim]
      rw [hstep]
      refine ⟨fun row h => ?_, fun a h => ?_⟩
      · rcases (ih s).1 row h with h' | ⟨g, hg, hgsim, hgeq⟩
        · exact Or.inl h'
        · exact Or.inr ⟨g, by simp [hg], hgsim, hgeq⟩
      · rcases (ih s).2 a h with h' | ⟨g, hg, hgsim, hgeq⟩
        · exact Or.inl h'
        · exact Or.inr ⟨g, by simp [hg], hgsim, hgeq⟩
    · have hsim' : is_similar_to_dismissed dist dismissed f.encoding
          dismissal_threshold = false := by
        rwa [Bool.not_eq_true] at hsim
      by_cases hcf : f.cropFails = true
      · have hstep : processFaces dist dismissed docId (f :: fs) s =
            .error s := by
          simp only [processFaces, processFace, if_neg hsim, if_pos hcf]
        rw [hstep]
        exact ⟨fun row h => Or.inl h, fun a h => Or.inl h⟩
      · have hstep : processFaces dist dismissed docId (f :: fs) s =
            processFaces dist dismissed docId fs
              { rows := s.rows ++ [faceRowOf docId f],
                embAdds := s.embAdds ++ [embAddOf docId f],
                count := s.count + 1 } := by
          simp only [processFaces, processFace, if_neg hsim, if_neg hcf]
        rw [hstep]
        refine ⟨fun row h => ?_, fun a h => ?_⟩
        · rcases (ih _).1 row h with h' | ⟨g, hg, hgsim, hgeq⟩
          · rcases List.mem_append.mp h' with h'' | h''
            · exact Or.inl h''
            · refine Or.inr ⟨f, by simp, hsim', ?_⟩
              simpa using h''
          · exact Or.inr ⟨g, by simp [hg], hgsim, hgeq⟩
        · rcases (ih _).2 a h with h' | ⟨g, hg, hgsim, hgeq⟩
          · rcases List.mem_append.mp h' with h'' | h''
            · exact Or.inl h''
            · refine Or.inr ⟨f, by simp, hsim', ?_⟩
              simpa using h''
          · exact Or.inr ⟨g, by simp [hg], hgsim, hgeq⟩

/-- Lift of the per-face invariant over the image loop. -/
theorem processImages_rows_from_kept (dist : Vec → Vec → ℚ)
    (dismissed : List Vec) (docId : Nat) :
    ∀ (imgs : List ImageFile) (s : Sess),
      (∀ row ∈ (sessOf (processImages dist dismissed docId imgs s)).rows,
        row ∈ s.rows ∨ ∃ f ∈ imgsDetections imgs,
          is_similar_to_dismissed dist dismissed f.encoding
            dismissal_threshold = false ∧
          row = faceRowOf docId f) ∧
      (∀ a ∈ (sessOf (processImages dist dismissed docId imgs s)).embAdds,
        a ∈ s.embAdds ∨ ∃ f ∈ imgsDetections imgs,
          is_similar_to_dismissed dist dismissed f.encoding
            dismissal_threshold = false ∧
          a = embAddOf docId f) := by
  intro imgs
  induction imgs with
  | nil =>
    intro s
    exact ⟨fun row h => Or.inl h, fun a h => Or.inl h⟩
  | cons img imgs ih =>
    intro s
    by_cases hext : img.extOk = false
    · have hstep : processImages dist dismissed docId (img :: imgs) s =
          processImages dist dismissed docId imgs s := by
        simp only [processImages, if_pos hext]
      have hdet : imgsDetections (img :: imgs) = imgsDetections imgs := by
        simp [imgsDetections, List.filter_cons, hext]
      rw [hstep, hdet]
      exact ih s
    · have hext' : img.extOk = true := by
        rwa [Bool.not_eq_false] at hext
      have hdet : imgsDetections (img :: imgs) =
          detect_faces_in_image true img.locs ++ imgsDetections imgs := by
        simp [imgsDetections, List.filter_cons, hext']
      have hface := processFaces_rows_from_kept dist dismissed docId
        (detect_faces_in_image true img.locs) s
      rcases hpf : processFaces dist dismissed docId
          (detect_faces_in_image true img.locs) s with s' | s'
      · -- exception inside this image's faces: whole loop aborts
        have hstep : processImages dist dismissed docId (img :: imgs) s =
            .error s' := by
          simp only [processImages, if_neg (by simp [hext'] : ¬ img.extOk = false)]
          rw [hpf]
        rw [hstep, hdet]
        rw [hpf] at hface
        refine ⟨fun row h => ?_, fun a h => ?_⟩
        · rcases hface.1 row h with h' | ⟨g, hg, hgsim, hgeq⟩
          · exact Or.inl h'
          · exact Or.inr ⟨g, List.mem_append.mpr (Or.inl hg), hgsim, hgeq⟩
        · rcases hface.2 a h with h' | ⟨g, hg, hgsim, hgeq⟩
          · exact Or.inl h'
          · exact Or.inr ⟨g, List.mem_append.mpr (Or.inl hg), hgsim, hgeq⟩
      · have hstep : processImages dist dismissed docId (img :: imgs) s =
            processImages dist dismissed docId imgs s' := by
          simp only [processImages, if_neg (by simp [hext'] : ¬ img.extOk = false)]
          rw [hpf]
        rw [hstep, hdet]
        rw [hpf] at hface
        refine ⟨fun row h => ?_, fun a h => ?_⟩
        · rcases (ih s').1 row h with h' | ⟨g, hg, hgsim, hgeq⟩
          · rcases hface.1 row h' with h'' | ⟨g, hg, hgsim, hgeq⟩
            · exact Or.inl h''
            · exact Or.inr ⟨g, List.mem_append.mpr (Or.inl hg), hgsim, hgeq⟩
          · exact Or.inr ⟨g, List.mem_append.mpr (Or.inr hg), hgsim, hgeq⟩
        · rcases (ih s').2 a h with h' | ⟨g, hg, hgsim, hgeq⟩
          · rcases hface.2 a h' with h'' | ⟨g, hg, hgsim, hgeq⟩
            · exact Or.inl h''
            · exact Or.inr ⟨g, List.mem_append.mpr (Or.inl hg), hgsim, hgeq⟩
          · exact Or.inr ⟨g, List.mem_append.mpr (Or.inr hg), hgsim, hgeq⟩

end Faces

namespace Faces

/-- C4: a new detection whose nearest-neighbour distance to the dismissed
embedding set is strictly below the 0.4 dismissal threshold tests as
similar-to-dismissed, and every Face row and every vector-index write
produced by a document's face attempt stems from a detection whose
dismissal test came back false — a dismissed detection is discarded
entirely. -/
theorem C4_dismissed_detection_dropped (dist : Vec → Vec → ℚ)
    (dismissed : List Vec) (inp : DocInput) :
    (∀ e d0, (dismissed.map (fun v => dist e v)).min? = some d0 →
        d0 < dismissal_threshold →
        is_similar_to_dismissed dist dismissed e dismissal_threshold = true) ∧
    (∀ row ∈ (process_document true dist dismissed inp).rows,
      ∃ f ∈ allDetections inp,
        is_similar_to_dismissed dist dismissed f.encoding
          dismissal_threshold = false ∧
        row = faceRowOf inp.doc.id f) ∧
    (∀ a ∈ (process_document true dist dismissed inp).embAdds,
      ∃ f ∈ allDetections inp,
        is_similar_to_dismissed dist dismissed f.encoding
          dismissal_threshold = false ∧
        a = embAddOf inp.doc.id f) := by
  refine ⟨?_, ?_, ?_⟩
  · intro e d0 hmin hlt
    unfold is_similar_to_dismissed
    have hne : ¬ dismissed.length = 0 := by
      intro h0
      rw [List.length_eq_zero] at h0
      subst h0
      simp at hmin
    rw [if_neg hne, hmin]
    simpa using hlt
  · intro row hrow
    unfold process_document at hrow
    rw [if_neg (by simp)] at hrow
    split at hrow
    · simp at hrow
    · split at hrow
      · simp at hrow
      · have hinv := (processImages_rows_from_kept dist dismissed inp.doc.id
          inp.images ⟨[], [], 0⟩).1
        rcases hpi : processImages dist dismissed inp.doc.id inp.images
            ⟨[], [], 0⟩ with s | s
        all_goals rw [hpi] at hrow hinv
        all_goals dsimp only [sessOf] at hrow hinv
        all_goals rcases hinv row hrow with h' | ⟨g, hg, hgsim, hgeq⟩
        · simp at h'
        · exact ⟨g, hg, hgsim, hgeq⟩
        · simp at h'
        · exact ⟨g, hg, hgsim, hgeq⟩
  · intro a ha
    unfold process_document at ha
    rw [if_neg (by simp)] at ha
    split at ha
    · simp at ha
    · split at ha
      · simp at ha
      · have hinv := (processImages_rows_from_kept dist dismissed inp.doc.id
          inp.images ⟨[], [], 0⟩).2
        rcases hpi : processImages dist dismissed inp.doc.id inp.images
            ⟨[], [], 0⟩ with s | s
        all_goals rw [hpi] at ha hinv
        all_goals dsimp only [sessOf] at ha hinv
        all_goals rcases hinv a ha with h' | ⟨g, hg, hgsim, hgeq⟩
        · simp at h'
        · exact ⟨g, hg, hgsim, hgeq⟩
        · simp at h'
        · exact ⟨g, hg, hgsim, hgeq⟩

/-- Witness for C4_dismissed_detection_dropped: a detection at distance
0.1 from a dismissed embedding tests as dismissed, and a kept detection's
row stems from a detection that passed the dismissal check. -/
theorem C4_dismissed_detection_dropped_witness :
    is_similar_to_dismissed (fun _ _ => (1 : ℚ) / 10) [[0]] [1]
      dismissal_threshold = true ∧
    (∃ f ∈ allDetections ⟨⟨7, true, 1, "completed", "pending"⟩, true,
        [⟨true, [⟨0, 40, 40, 0, [1], 99, false⟩]⟩]⟩,
      is_similar_to_dismissed (fun _ _ => (0 : ℚ)) [] f.encoding
        dismissal_threshold = false ∧
      faceRowOf 7 (mkFaceData ⟨0, 40, 40, 0, [1], 99, false⟩) =
        faceRowOf 7 f) :=
  ⟨(C4_dismissed_detection_dropped (fun _ _ => (1 : ℚ) / 10) [[0]]
      ⟨⟨7, true, 1, "completed", "pending"⟩, true, []⟩).1 [1] (1 / 10)
      rfl (by norm_num [dismissal_threshold]),
   (C4_dismissed_detection_dropped (fun _ _ => (0 : ℚ)) []
      ⟨⟨7, true, 1, "completed", "pending"⟩, true,
        [⟨true, [⟨0, 40, 40, 0, [1], 99, false⟩]⟩]⟩).2.1
      (faceRowOf 7 (mkFaceData ⟨0, 40, 40, 0, [1], 99, false⟩)) (by decide)⟩

end Faces

namespace Faces

/-- C1 (counterexample): a run over one candidate document whose second
detection raises during persistence marks the document `failed` — but the
Face row created for the first detection before the error IS committed by
the run, so the failed attempt is not free of partial derived facts. -/
theorem C1_counterexample :
    (process_all true (fun _ _ => 0) [] false none
        [⟨⟨1, true, 1, "completed", "pending"⟩, true,
          [⟨true, [⟨0, 40, 40, 0, [], 11, false⟩,
                   ⟨0, 50, 50, 0, [], 12, true⟩]⟩]⟩]).statuses =
      [(1, "failed")] ∧
    (process_all true (fun _ _ => 0) [] false none
        [⟨⟨1, true, 1, "completed", "pending"⟩, true,
          [⟨true, [⟨0, 40, 40, 0, [], 11, false⟩,
                   ⟨0, 50, 50, 0, [], 12, true⟩]⟩]⟩]).store.committedRows =
      [faceRowOf 1 (mkFaceData ⟨0, 40, 40, 0, [], 11, false⟩)] := by
  constructor <;> rfl

/-- Candidates of a run are among its input documents. -/
theorem cands_subset (reprocess : Bool) (limit : Option Nat)
    (docs : List DocInput) :
    ∀ d ∈ applyLimit limit (selectCandidates reprocess docs), d ∈ docs := by
  intro d hd
  have hd' : d ∈ selectCandidates reprocess docs := by
    unfold applyLimit at hd
    rcases limit with _ | n
    · exact hd
    · dsimp only at hd
      split at hd
      · exact hd
      · exact List.take_subset n _ hd
  unfold selectCandidates at hd'
  exact (List.mem_filter.mp hd').1

/-- C1 (amended): an unhandled error inside a document's face attempt sets
that document's status to `failed` and returns zero faces, the run
continues (non-candidates keep their prior status and every document's
outcome is a function of its own input alone), BUT the Face rows already
added during the failed attempt are committed by the run's per-document
commit — the attempt is not rolled back. -/
theorem C1_failed_attempt_commits_partial_rows (dist : Vec → Vec → ℚ)
    (dismissed : List Vec) (inp : DocInput) (s : Sess)
    (h1 : inp.doc.has_images = true) (h2 : inp.doc.image_count ≠ 0)
    (h3 : inp.dirExists = true)
    (herr : processImages dist dismissed inp.doc.id inp.images ⟨[], [], 0⟩ =
      .error s)
    (reprocess : Bool) (limit : Option Nat) (docs : List DocInput)
    (hmem : inp ∈ applyLimit limit (selectCandidates reprocess docs)) :
    process_document true dist dismissed inp =
      { status := "failed", rows := s.rows, embAdds := s.embAdds,
        count := 0 } ∧
    (∀ row ∈ s.rows,
      row ∈ (process_all true dist dismissed reprocess limit
        docs).store.committedRows) ∧
    (inp.doc.id, "failed") ∈
      (process_all true dist dismissed reprocess limit docs).statuses ∧
    (∀ d ∈ docs, d ∉ applyLimit limit (selectCandidates reprocess docs) →
      (d.doc.id, d.doc.face_status) ∈
        (process_all true dist dismissed reprocess limit docs).statuses) := by
  have hpd : process_document true dist dismissed inp =
      { status := "failed", rows := s.rows, embAdds := s.embAdds,
        count := 0 } := by
    unfold process_document
    rw [if_neg (by simp), if_neg (by simp [h1, h2]), if_neg (by simp [h3]),
      herr]
  refine ⟨hpd, fun row hrow => ?_, ?_, fun d hd hnd => ?_⟩
  · unfold process_all
    rw [if_neg (by simp)]
    dsimp only
    refine List.mem_flatMap.mpr ?_
    refine ⟨process_document true dist dismissed inp, ?_, ?_⟩
    · exact List.mem_map.mpr ⟨inp, hmem, rfl⟩
    · rw [hpd]
      exact hrow
  · unfold process_all
    rw [if_neg (by simp)]
    dsimp only
    refine List.mem_map.mpr ⟨inp, cands_subset reprocess limit docs inp hmem, ?_⟩
    rw [if_pos hmem, hpd]
  · unfold process_all
    rw [if_neg (by simp)]
    dsimp only
    exact List.mem_map.mpr ⟨d, hd, by rw [if_neg hnd]⟩

/-- Witness for C1_failed_attempt_commits_partial_rows at the concrete
two-detection run used in the counterexample, with a second non-candidate
document. -/
theorem C1_failed_attempt_commits_partial_rows_witness :
    process_document true (fun _ _ => (0 : ℚ)) []
        ⟨⟨1, true, 1, "completed", "pending"⟩, true,
          [⟨true, [⟨0, 40, 40, 0, [], 11, false⟩,
                   ⟨0, 50, 50, 0, [], 12, true⟩]⟩]⟩ =
      { status := "failed",
        rows := [faceRowOf 1 (mkFaceData ⟨0, 40, 40, 0, [], 11, false⟩)],
        embAdds := [embAddOf 1 (mkFaceData ⟨0, 40, 40, 0, [], 11, false⟩)],
        count := 0 } ∧
    (∀ row ∈ [faceRowOf 1 (mkFaceData ⟨0, 40, 40, 0, [], 11, false⟩)],
      row ∈ (process_all true (fun _ _ => (0 : ℚ)) [] false none
        [⟨⟨1, true, 1, "completed", "pending"⟩, true,
          [⟨true, [⟨0, 40, 40, 0, [], 11, false⟩,
                   ⟨0, 50, 50, 0, [], 12, true⟩]⟩]⟩,
         ⟨⟨2, true, 1, "completed", "completed"⟩, true, []⟩]).store.committedRows) ∧
    ((1 : Nat), "failed") ∈
      (process_all true (fun _ _ => (0 : ℚ)) [] false none
        [⟨⟨1, true, 1, "completed", "pending"⟩, true,
          [⟨true, [⟨0, 40, 40, 0, [], 11, false⟩,
                   ⟨0, 50, 50, 0, [], 12, true⟩]⟩]⟩,
         ⟨⟨2, true, 1, "completed", "completed"⟩, true, []⟩]).statuses ∧
    (∀ d ∈ [(⟨⟨1, true, 1, "completed", "pending"⟩, true,
          [⟨true, [⟨0, 40, 40, 0, [], 11, false⟩,
                   ⟨0, 50, 50, 0, [], 12, true⟩]⟩]⟩ : DocInput),
         ⟨⟨2, true, 1, "completed", "completed"⟩, true, []⟩],
      d ∉ applyLimit none (selectCandidates false
        [⟨⟨1, true, 1, "completed", "pending"⟩, true,
          [⟨true, [⟨0, 40, 40, 0, [], 11, false⟩,
                   ⟨0, 50, 50, 0, [], 12, true⟩]⟩]⟩,
         ⟨⟨2, true, 1, "completed", "completed"⟩, true, []⟩]) →
      (d.doc.id, d.doc.face_status) ∈
        (process_all true (fun _ _ => (0 : ℚ)) [] false none
          [⟨⟨1, true, 1, "completed", "pending"⟩, true,
            [⟨true, [⟨0, 40, 40, 0, [], 11, false⟩,
                     ⟨0, 50, 50, 0, [], 12, true⟩]⟩]⟩,
           ⟨⟨2, true, 1, "completed", "completed"⟩, true, []⟩]).statuses) :=
  C1_failed_attempt_commits_partial_rows (fun _ _ => (0 : ℚ)) []
    ⟨⟨1, true, 1, "completed", "pending"⟩, true,
      [⟨true, [⟨0, 40, 40, 0, [], 11, false⟩,
               ⟨0, 50, 50, 0, [], 12, true⟩]⟩]⟩
    ⟨[faceRowOf 1 (mkFaceData ⟨0, 40, 40, 0, [], 11, false⟩)],
     [embAddOf 1 (mkFaceData ⟨0, 40, 40, 0, [], 11, false⟩)], 1⟩
    rfl (by decide) rfl rfl false none
    [⟨⟨1, true, 1, "completed", "pending"⟩, true,
      [⟨true, [⟨0, 40, 40, 0, [], 11, false⟩,
               ⟨0, 50, 50, 0, [], 12, true⟩]⟩]⟩,
     ⟨⟨2, true, 1, "completed", "completed"⟩, true, []⟩]
    (by decide)

end Faces

namespace Faces

theorem pyMaxBySize_mem (fs : List FaceRec) :
    ∀ acc, pyMaxBySize acc fs ∈ acc :: fs := by
  induction fs with
  | nil => intro acc; simp [pyMaxBySize]
  | cons f fs ih =>
    intro acc
    rw [pyMaxBySize]
    by_cases h : acc.face_size.getD 0 < f.face_size.getD 0
    · simp only [if_pos h]
      have := ih f
      rcases List.mem_cons.mp this with h' | h'
      · simp [h']
      · simp [List.mem_cons, h']
    · simp only [if_neg h]
      have := ih acc
      rcases List.mem_cons.mp this with h' | h'
      · simp [h']
      · simp [List.mem_cons, h']

theorem pyMaxBySize_ge (fs : List FaceRec) :
    ∀ acc m, m ∈ acc :: fs →
      m.face_size.getD 0 ≤ (pyMaxBySize acc fs).face_size.getD 0 := by
  induction fs with
  | nil =>
    intro acc m hm
    rcases List.mem_cons.mp hm with rfl | h
    · simp [pyMaxBySize]
    · simp at h
  | cons f fs ih =>
    intro acc m hm
    rw [pyMaxBySize]
    by_cases h : acc.face_size.getD 0 < f.face_size.getD 0
    · simp only [if_pos h]
      rcases List.mem_cons.mp hm with rfl | h'
      · exact le_trans (le_of_lt h) (ih f f (by simp))
      · exact ih f m h'
    · simp only [if_neg h]
      rcases List.mem_cons.mp hm with rfl | h'
      · exact ih _ _ (by simp)
      · rcases List.mem_cons.mp h' with rfl | h''
        · exact le_trans (le_of_not_lt h) (ih acc acc (by simp))
        · exact ih acc m (by simp [h''])

theorem distinctNats_go_mem (ls : List Nat) :
    ∀ acc x,
      x ∈ ls.foldl (fun a l => if l ∈ a then a else a ++ [l]) acc ↔
        x ∈ acc ∨ x ∈ ls := by
  induction ls with
  | nil => intro acc x; simp
  | cons l ls ih =>
    intro acc x
    rw [List.foldl_cons]
    by_cases h : l ∈ acc
    · rw [if_pos h, ih]
      constructor
      · rintro (hx | hx)
        · exact Or.inl hx
        · exact Or.inr (by simp [hx])
      · rintro (hx | hx)
        · exact Or.inl hx
        · rcases List.mem_cons.mp hx with rfl | hx'
          · exact Or.inl h
          · exact Or.inr hx'
    · rw [if_neg h, ih]
      constructor
      · rintro (hx | hx)
        · rcases List.mem_append.mp hx with hx' | hx'
          · exact Or.inl hx'
          · simp at hx'
            exact Or.inr (by simp [hx'])
        · exact Or.inr (by simp [hx])
      · rintro (hx | hx)
        · exact Or.inl (List.mem_append.mpr (Or.inl hx))
        · rcases List.mem_cons.mp hx with rfl | hx'
          · exact Or.inl (by simp)
          · exact Or.inr hx'

theorem distinctNats_go_nodup (ls : List Nat) :
    ∀ acc, acc.Nodup →
      (ls.foldl (fun a l => if l ∈ a then a else a ++ [l]) acc).Nodup := by
  induction ls with
  | nil => intro acc h; simpa using h
  | cons l ls ih =>
    intro acc h
    rw [List.foldl_cons]
    by_cases hl : l ∈ acc
    · rw [if_pos hl]
      exact ih acc h
    · rw [if_neg hl]
      refine ih _ ?_
      simp [List.nodup_append, h, hl]

theorem distinctNats_mem (ls : List Nat) (x : Nat) :
    x ∈ distinctNats ls ↔ x ∈ ls := by
  unfold distinctNats
  rw [distinctNats_go_mem]
  simp

theorem distinctNats_nodup (ls : List Nat) : (distinctNats ls).Nodup :=
  distinctNats_go_nodup ls [] (by simp)

theorem distinctNats_length_card (ls : List Nat) :
    (distinctNats ls).length = ls.toFinset.card := by
  have h1 : (distinctNats ls).toFinset = ls.toFinset := by
    ext x
    simp [List.mem_toFinset, distinctNats_mem]
  rw [← h1, List.toFinset_card_of_nodup (distinctNats_nodup ls)]

theorem findUpdate_eq_none (ups : List (Nat × Nat)) (fid : Nat) :
    findUpdate ups fid = none ↔ fid ∉ ups.map Prod.fst := by
  induction ups with
  | nil => simp [findUpdate]
  | cons u ups ih =>
    rw [findUpdate]
    by_cases h : u.1 = fid
    · rw [if_pos h]
      simp [h]
    · rw [if_neg h]
      rw [ih]
      constructor
      · intro hnot hmem
        rcases List.mem_cons.mp hmem with h' | h'
        · exact h h'.symm
        · exact hnot h'
      · intro hnot hmem
        exact hnot (List.mem_cons.mpr (Or.inr hmem))

/-- Every `cluster_id` mutation recorded by the cluster-creation loop
targets a face id of some assignment group and carries the id of a created
cluster row. -/
theorem buildClusters_updates_spec (allFaces : List FaceRec) :
    ∀ (asg : List (Int × List Nat)) (nid : Nat),
      ∀ u ∈ (buildClusters allFaces asg nid).2,
        (∃ a ∈ asg, u.1 ∈ a.2) ∧
        ∃ c ∈ (buildClusters allFaces asg nid).1, u.2 = c.id := by
  intro asg
  induction asg with
  | nil => intro nid u hu; simp [buildClusters] at hu
  | cons a asg ih =>
    intro nid u hu
    rcases a with ⟨l, ids⟩
    rw [buildClusters] at hu ⊢
    rcases hsel : allFaces.filter (fun f => f.id ∈ ids) with _ | ⟨g, gs⟩
    · rw [hsel] at hu ⊢
      rcases ih nid u hu with ⟨⟨a', ha', hid⟩, c, hc, hcid⟩
      exact ⟨⟨a', by simp [ha'], hid⟩, c, hc, hcid⟩
    · rw [hsel] at hu ⊢
      dsimp only at hu ⊢
      rcases List.mem_append.mp hu with hu' | hu'
      · rcases List.mem_map.mp hu' with ⟨m, hm, hmu⟩
        subst hmu
        have hmid : m.id ∈ ids := by
          have := List.mem_filter.mp (hsel ▸ hm)
          simpa using this.2
        exact ⟨⟨(l, ids), by simp, hmid⟩, _, List.mem_cons_self _ _, rfl⟩
      · rcases ih (nid + 1) u hu' with ⟨⟨a', ha', hid⟩, c, hc, hcid⟩
        exact ⟨⟨a', by simp [ha'], hid⟩, c, by simp [hc], hcid⟩

/-- Every cluster row created by the loop: its member selection is
nonempty, its representative is the member with the maximal face size,
its face count is the group size, and its document count is the number of
distinct owning documents among members. -/
theorem buildClusters_clusters_spec (allFaces : List FaceRec) :
    ∀ (asg : List (Int × List Nat)) (nid : Nat),
      ∀ c ∈ (buildClusters allFaces asg nid).1,
        ∃ ids, (∃ a ∈ asg, a.2 = ids) ∧
          ∃ g gs, allFaces.filter (fun f => f.id ∈ ids) = g :: gs ∧
            c.representative_face_id = (pyMaxBySize g gs).id ∧
            c.face_count = ids.length ∧
            c.document_count =
              (distinctNats ((g :: gs).map (fun f => f.document_id))).length := by
  intro asg
  induction asg with
  | nil => intro nid c hc; simp [buildClusters] at hc
  | cons a asg ih =>
    intro nid c hc
    rcases a with ⟨l, ids⟩
    rw [buildClusters] at hc
    rcases hsel : allFaces.filter (fun f => f.id ∈ ids) with _ | ⟨g, gs⟩
    · rw [hsel] at hc
      rcases ih nid c hc with ⟨ids', ⟨a', ha', hval⟩, rest⟩
      exact ⟨ids', ⟨a', by simp [ha'], hval⟩, rest⟩
    · rw [hsel] at hc
      dsimp only at hc
      rcases List.mem_cons.mp hc with rfl | hc'
      · exact ⟨ids, ⟨(l, ids), by simp, rfl⟩, g, gs, hsel, rfl, rfl, rfl⟩
      · rcases ih (nid + 1) c hc' with ⟨ids', ⟨a', ha', hval⟩, rest⟩
        exact ⟨ids', ⟨a', by simp [ha'], hval⟩, rest⟩

end Faces

namespace Faces

/-- Every face id in an assignment group comes from the fetched batch. -/
theorem assignments_ids_subset (pairs : List (Nat × Vec))
    (labels : List Int) :
    ∀ a ∈ assignmentsFor pairs labels, ∀ i ∈ a.2,
      i ∈ pairs.map Prod.fst := by
  intro a ha i hi
  unfold assignmentsFor at ha
  rcases List.mem_map.mp ha with ⟨l, _, hal⟩
  subst hal
  dsimp only at hi
  rcases List.mem_map.mp hi with ⟨p, hp, hpi⟩
  subst hpi
  have hp1 : p ∈ (List.zip (pairs.map Prod.fst) labels) :=
    List.mem_of_mem_filter (List.mem_of_mem_filter hp)
  rcases p with ⟨i, lab⟩
  exact (List.of_mem_zip hp1).1

/-- A successful fetch pair carries the face's own id. -/
theorem fetchPair_id (fetch : Nat → Option Vec) (g : FaceRec)
    (p : Nat × Vec) (h : fetchPair fetch g = some p) : g.id = p.1 := by
  unfold fetchPair at h
  rcases hge : g.embedding_id with _ | e
  · rw [hge] at h; simp at h
  · rw [hge] at h
    dsimp only at h
    rcases hf : fetch e with _ | v
    · rw [hf] at h; simp at h
    · rw [hf] at h
      dsimp only at h
      rw [Option.some.injEq] at h
      subst h
      rfl

/-- C5: a clustering run with fewer than 2 fetched embeddings is a no-op
(zero clusters, zero clustered faces, no cluster rows, no face touched);
a face whose embedding fetch fails contributes nothing to the batch, and
— when face ids are unique — is left entirely unchanged while the batch
itself still runs for the others. -/
theorem C5_small_batch_noop_and_fetch_exclusion (fetch : Nat → Option Vec)
    (dbscan : List Vec → List Int) (nid : Nat) (allFaces : List FaceRec) :
    (((allFaces.filter (fun f => f.embedding_id.isSome)).filterMap
        (fetchPair fetch)).length < 2 →
      cluster_faces true fetch dbscan nid allFaces = noopClusterOut allFaces) ∧
    (∀ f : FaceRec, ∀ e, f.embedding_id = some e → fetch e = none →
      fetchPair fetch f = none) ∧
    ((allFaces.map (fun f => f.id)).Nodup →
      ∀ f ∈ allFaces, ∀ e, f.embedding_id = some e → fetch e = none →
      f ∈ (cluster_faces true fetch dbscan nid allFaces).faces) := by
  refine ⟨?_, ?_, ?_⟩
  · intro h
    unfold cluster_faces
    rw [if_neg (by simp)]
    by_cases hlt : (allFaces.filter (fun f => f.embedding_id.isSome)).length < 2
    · rw [if_pos hlt]
    · rw [if_neg hlt, if_pos h]
  · intro f e he hfe
    simp [fetchPair, he, hfe]
  · intro hnd f hf e he hfe
    have hnotpair : f.id ∉
        ((allFaces.filter (fun g => g.embedding_id.isSome)).filterMap
          (fetchPair fetch)).map Prod.fst := by
      intro hmem
      rcases List.mem_map.mp hmem with ⟨p, hp, hpid⟩
      rcases List.mem_filterMap.mp hp with ⟨g, hg, hgp⟩
      have hgid : g.id = f.id := by rw [fetchPair_id fetch g p hgp, hpid]
      have hgf : g = f :=
        List.inj_on_of_nodup_map hnd (List.mem_of_mem_filter hg) hf hgid
      subst hgf
      rw [show fetchPair fetch g = none by simp [fetchPair, he, hfe]] at hgp
      exact absurd hgp (by simp)
    unfold cluster_faces
    rw [if_neg (by simp)]
    by_cases hlt : (allFaces.filter (fun f => f.embedding_id.isSome)).length < 2
    · rw [if_pos hlt]
      exact hf
    · rw [if_neg hlt]
      by_cases hlt2 : ((allFaces.filter (fun f => f.embedding_id.isSome)).filterMap
          (fetchPair fetch)).length < 2
      · rw [if_pos hlt2]
        exact hf
      · rw [if_neg hlt2]
        dsimp only
        refine List.mem_map.mpr ⟨f, hf, ?_⟩
        unfold applyUpdates
        have hnone : findUpdate
            (buildClusters allFaces
              (assignmentsFor
                ((allFaces.filter (fun f => f.embedding_id.isSome)).filterMap
                  (fetchPair fetch))
                (dbscan (((allFaces.filter (fun f => f.embedding_id.isSome)).filterMap
                  (fetchPair fetch)).map Prod.snd))) nid).2 f.id = none := by
          rw [findUpdate_eq_none]
          intro hmem
          rcases List.mem_map.mp hmem with ⟨u, hu, hufst⟩
          rcases (buildClusters_updates_spec allFaces _ nid u hu).1 with
            ⟨a, ha, hia⟩
          have := assignments_ids_subset _ _ a ha u.1 hia
          rw [hufst] at this
          exact hnotpair this
        rw [hnone]

/-- Witness for C5_small_batch_noop_and_fetch_exclusion: a one-face run is
a no-op, and in a three-face run where only face 1's fetch fails, face 1
is untouched. -/
theorem C5_small_batch_noop_and_fetch_exclusion_witness :
    cluster_faces true (fun e => if e = 10 then none else some [])
        (fun _ => [0, 0]) 100 [⟨1, 1, some 100, some 10, some 3⟩] =
      noopClusterOut [⟨1, 1, some 100, some 10, some 3⟩] ∧
    fetchPair (fun e => if e = 10 then none else some [])
        ⟨1, 1, some 100, some 10, some 3⟩ = none ∧
    (⟨1, 1, some 100, some 10, some 3⟩ : FaceRec) ∈
      (cluster_faces true (fun e => if e = 10 then none else some [])
        (fun _ => [0, 0]) 100
        [⟨1, 1, some 100, some 10, some 3⟩,
         ⟨2, 1, some 100, some 11, none⟩,
         ⟨3, 1, some 100, some 12, none⟩]).faces :=
  ⟨(C5_small_batch_noop_and_fetch_exclusion
      (fun e => if e = 10 then none else some []) (fun _ => [0, 0]) 100
      [⟨1, 1, some 100, some 10, some 3⟩]).1 (by decide),
   (C5_small_batch_noop_and_fetch_exclusion
      (fun e => if e = 10 then none else some []) (fun _ => [0, 0]) 100
      [⟨1, 1, some 100, some 10, some 3⟩]).2.1
      ⟨1, 1, some 100, some 10, some 3⟩ 10 rfl (by decide),
   (C5_small_batch_noop_and_fetch_exclusion
      (fun e => if e = 10 then none else some []) (fun _ => [0, 0]) 100
      [⟨1, 1, some 100, some 10, some 3⟩,
       ⟨2, 1, some 100, some 11, none⟩,
       ⟨3, 1, some 100, some 12, none⟩]).2.2 (by decide)
      ⟨1, 1, some 100, some 10, some 3⟩ (by decide) 10 rfl (by decide)⟩

end Faces

namespace Faces

/-- C6 (counterexample): in a run where every face is DBSCAN noise (zero
clusters), a face that carried `cluster_id = 7` from an earlier run keeps
it — the claim that noise faces end with `cluster_id = null` fails,
because the code never clears `cluster_id` of unassigned faces. -/
theorem C6_counterexample :
    (cluster_faces true (fun _ => some []) (fun _ => [-1, -1]) 100
        [⟨1, 1, some 2000, some 10, some 7⟩,
         ⟨2, 1, some 2000, some 11, none⟩]).result_clusters = 0 ∧
    ∃ f ∈ (cluster_faces true (fun _ => some []) (fun _ => [-1, -1]) 100
        [⟨1, 1, some 2000, some 10, some 7⟩,
         ⟨2, 1, some 2000, some 11, none⟩]).faces,
      f.cluster_id = some 7 :=
  ⟨rfl, ⟨1, 1, some 2000, some 10, some 7⟩, by decide, rfl⟩

theorem applyUpdates_nil (f : FaceRec) : applyUpdates [] f = f := rfl

theorem map_applyUpdates_nil (l : List FaceRec) :
    l.map (applyUpdates []) = l := by
  induction l with
  | nil => rfl
  | cons f fs ih => simp [applyUpdates_nil, ih]

/-- C6 (amended): after a clustering run the face table is the input with
the run's recorded `cluster_id` mutations applied; every mutation writes
the id of a cluster row created by this run (members get the new cluster's
id); and a face with no recorded mutation — in particular a DBSCAN noise
face — keeps its PREVIOUS cluster_id, which is null only if it was already
null. -/
theorem C6_members_updated_noise_unchanged (fetch : Nat → Option Vec)
    (dbscan : List Vec → List Int) (nid : Nat) (allFaces : List FaceRec) :
    (cluster_faces true fetch dbscan nid allFaces).faces =
      allFaces.map
        (applyUpdates (cluster_faces true fetch dbscan nid allFaces).updates) ∧
    (∀ u ∈ (cluster_faces true fetch dbscan nid allFaces).updates,
      ∃ c ∈ (cluster_faces true fetch dbscan nid allFaces).clusters,
        u.2 = c.id) ∧
    (∀ f ∈ allFaces,
      findUpdate (cluster_faces true fetch dbscan nid allFaces).updates
          f.id = none →
      f ∈ (cluster_faces true fetch dbscan nid allFaces).faces) := by
  by_cases hlt : (allFaces.filter (fun f => f.embedding_id.isSome)).length < 2
  · have hcf : cluster_faces true fetch dbscan nid allFaces =
        noopClusterOut allFaces := by
      unfold cluster_faces
      rw [if_neg (by simp), if_pos hlt]
    rw [hcf]
    refine ⟨by simp [noopClusterOut, map_applyUpdates_nil],
      fun u hu => absurd hu (by simp [noopClusterOut]),
      fun f hf _ => by simpa [noopClusterOut] using hf⟩
  · by_cases hlt2 : ((allFaces.filter (fun f => f.embedding_id.isSome)).filterMap
        (fetchPair fetch)).length < 2
    · have hcf : cluster_faces true fetch dbscan nid allFaces =
          noopClusterOut allFaces := by
        unfold cluster_faces
        rw [if_neg (by simp), if_neg hlt, if_pos hlt2]
      rw [hcf]
      refine ⟨by simp [noopClusterOut, map_applyUpdates_nil],
        fun u hu => absurd hu (by simp [noopClusterOut]),
        fun f hf _ => by simpa [noopClusterOut] using hf⟩
    · have hcf : cluster_faces true fetch dbscan nid allFaces =
          { result_clusters :=
              (assignmentsFor
                ((allFaces.filter (fun f => f.embedding_id.isSome)).filterMap
                  (fetchPair fetch))
                (dbscan
                  (((allFaces.filter (fun f => f.embedding_id.isSome)).filterMap
                    (fetchPair fetch)).map Prod.snd))).length,
            result_faces_clustered :=
              ((assignmentsFor
                ((allFaces.filter (fun f => f.embedding_id.isSome)).filterMap
                  (fetchPair fetch))
                (dbscan
                  (((allFaces.filter (fun f => f.embedding_id.isSome)).filterMap
                    (fetchPair fetch)).map Prod.snd))).map
                (fun a => a.2.length)).sum,
            clusters :=
              (buildClusters allFaces
                (assignmentsFor
                  ((allFaces.filter (fun f => f.embedding_id.isSome)).filterMap
                    (fetchPair fetch))
                  (dbscan
                    (((allFaces.filter (fun f => f.embedding_id.isSome)).filterMap
                      (fetchPair fetch)).map Prod.snd))) nid).1,
            updates :=
              (buildClusters allFaces
                (assignmentsFor
                  ((allFaces.filter (fun f => f.embedding_id.isSome)).filterMap
                    (fetchPair fetch))
                  (dbscan
                    (((allFaces.filter (fun f => f.embedding_id.isSome)).filterMap
                      (fetchPair fetch)).map Prod.snd))) nid).2,
            faces :=
              allFaces.map (applyUpdates
                (buildClusters allFaces
                  (assignmentsFor
                    ((allFaces.filter (fun f => f.embedding_id.isSome)).filterMap
                      (fetchPair fetch))
                    (dbscan
                      (((allFaces.filter (fun f => f.embedding_id.isSome)).filterMap
                        (fetchPair fetch)).map Prod.snd))) nid).2) } := by
        unfold cluster_faces
        rw [if_neg (by simp), if_neg hlt, if_neg hlt2]
      rw [hcf]
      refine ⟨rfl, fun u hu => ?_, fun f hf hnone => ?_⟩
      · exact (buildClusters_updates_spec allFaces _ nid u hu).2
      · refine List.mem_map.mpr ⟨f, hf, ?_⟩
        unfold applyUpdates
        rw [hnone]

/-- Witness for C6_members_updated_noise_unchanged: a run that forms one
cluster of faces 1 and 2 writes that cluster's id, and the noise face 3
keeps its old cluster_id. -/
theorem C6_members_updated_noise_unchanged_witness :
    (∃ c ∈ (cluster_faces true (fun _ => some []) (fun _ => [0, 0, -1]) 100
        [⟨1, 1, some 2000, some 10, none⟩,
         ⟨2, 2, some 1500, some 11, none⟩,
         ⟨3, 3, some 500, some 12, some 9⟩]).clusters,
      (100 : Nat) = c.id) ∧
    (⟨3, 3, some 500, some 12, some 9⟩ : FaceRec) ∈
      (cluster_faces true (fun _ => some []) (fun _ => [0, 0, -1]) 100
        [⟨1, 1, some 2000, some 10, none⟩,
         ⟨2, 2, some 1500, some 11, none⟩,
         ⟨3, 3, some 500, some 12, some 9⟩]).faces :=
  ⟨(C6_members_updated_noise_unchanged (fun _ => some [])
      (fun _ => [0, 0, -1]) 100
      [⟨1, 1, some 2000, some 10, none⟩,
       ⟨2, 2, some 1500, some 11, none⟩,
       ⟨3, 3, some 500, some 12, some 9⟩]).2.1 (1, 100) (by decide),
   (C6_members_updated_noise_unchanged (fun _ => some [])
      (fun _ => [0, 0, -1]) 100
      [⟨1, 1, some 2000, some 10, none⟩,
       ⟨2, 2, some 1500, some 11, none⟩,
       ⟨3, 3, some 500, some 12, some 9⟩]).2.2
      ⟨3, 3, some 500, some 12, some 9⟩ (by decide) (by decide)⟩

/-- C7: every cluster row produced by a clustering run has a member id
group such that: the members are the table rows with those ids, the group
is nonempty, the stored representative is a member whose face size
(taking null as 0) is maximal among members, the stored face_count is the
group size, and the stored document_count is the number of distinct
owning documents among members. -/
theorem C7_representative_largest_and_document_count
    (fetch : Nat → Option Vec) (dbscan : List Vec → List Int) (nid : Nat)
    (allFaces : List FaceRec) :
    ∀ c ∈ (cluster_faces true fetch dbscan nid allFaces).clusters,
      ∃ (ids : List Nat) (members : List FaceRec),
        members = allFaces.filter (fun f => f.id ∈ ids) ∧
        members ≠ [] ∧
        (∃ rep ∈ members, c.representative_face_id = rep.id ∧
          ∀ m ∈ members, m.face_size.getD 0 ≤ rep.face_size.getD 0) ∧
        c.face_count = ids.length ∧
        c.document_count =
          (members.map (fun f => f.document_id)).toFinset.card := by
  intro c hc
  unfold cluster_faces at hc
  rw [if_neg (by simp)] at hc
  by_cases hlt : (allFaces.filter (fun f => f.embedding_id.isSome)).length < 2
  · rw [if_pos hlt] at hc
    exact absurd hc (by simp [noopClusterOut])
  · rw [if_neg hlt] at hc
    by_cases hlt2 : ((allFaces.filter (fun f => f.embedding_id.isSome)).filterMap
        (fetchPair fetch)).length < 2
    · rw [if_pos hlt2] at hc
      exact absurd hc (by simp [noopClusterOut])
    · rw [if_neg hlt2] at hc
      dsimp only at hc
      rcases buildClusters_clusters_spec allFaces _ nid c hc with
        ⟨ids, _, g, gs, hsel, hrep, hfc, hdc⟩
      refine ⟨ids, g :: gs, hsel.symm, by simp,
        ⟨pyMaxBySize g gs, pyMaxBySize_mem gs g, hrep,
          fun m hm => pyMaxBySize_ge gs g m hm⟩, hfc, ?_⟩
      rw [hdc, distinctNats_length_card]

/-- Witness for C7_representative_largest_and_document_count at the
cluster formed by faces 1 and 2 (sizes 2000 and 1500, documents 1 and 2):
representative is face 1, document_count 2. -/
theorem C7_representative_largest_and_document_count_witness :
    ∃ (ids : List Nat) (members : List FaceRec),
      members = [(⟨1, 1, some 2000, some 10, none⟩ : FaceRec),
        ⟨2, 2, some 1500, some 11, none⟩,
        ⟨3, 3, some 500, some 12, some 9⟩].filter (fun f => f.id ∈ ids) ∧
      members ≠ [] ∧
      (∃ rep ∈ members,
        (ClusterRec.mk 100 1 2 2).representative_face_id = rep.id ∧
        ∀ m ∈ members, m.face_size.getD 0 ≤ rep.face_size.getD 0) ∧
      (ClusterRec.mk 100 1 2 2).face_count = ids.length ∧
      (ClusterRec.mk 100 1 2 2).document_count =
        (members.map (fun f => f.document_id)).toFinset.card :=
  C7_representative_largest_and_document_count (fun _ => some [])
    (fun _ => [0, 0, -1]) 100
    [⟨1, 1, some 2000, some 10, none⟩,
     ⟨2, 2, some 1500, some 11, none⟩,
     ⟨3, 3, some 500, some 12, some 9⟩]
    ⟨100, 1, 2, 2⟩ (by decide)

end Faces

namespace Downloader

/-- C3 (counterexample): for a document already present in the content
store with the `%PDF-` magic header, `download_one` performs no fetch but
also performs NO status update: the catalog row stays `pending`; only the
run's skipped counter changes.  The claim that the document is marked
`completed` fails (the code never writes `completed`; even fresh
downloads are marked `downloaded`). -/
theorem C3_counterexample :
    (download_one (fun _ => none) (fun _ => "h") ⟨"a.pdf", "u", "t"⟩
        ⟨[("a.pdf", [37, 80, 68, 70, 45, 1])],
         [⟨"a.pdf", "t", "u", "pending", "", 0⟩], 0, 0, 0⟩).2 = false ∧
    (download_one (fun _ => none) (fun _ => "h") ⟨"a.pdf", "u", "t"⟩
        ⟨[("a.pdf", [37, 80, 68, 70, 45, 1])],
         [⟨"a.pdf", "t", "u", "pending", "", 0⟩], 0, 0, 0⟩).1.docs =
      [⟨"a.pdf", "t", "u", "pending", "", 0⟩] ∧
    (∀ d ∈ (download_one (fun _ => none) (fun _ => "h") ⟨"a.pdf", "u", "t"⟩
        ⟨[("a.pdf", [37, 80, 68, 70, 45, 1])],
         [⟨"a.pdf", "t", "u", "pending", "", 0⟩], 0, 0, 0⟩).1.docs,
      d.download_status ≠ "completed") ∧
    (download_one (fun _ => none) (fun _ => "h") ⟨"a.pdf", "u", "t"⟩
        ⟨[("a.pdf", [37, 80, 68, 70, 45, 1])],
         [⟨"a.pdf", "t", "u", "pending", "", 0⟩], 0, 0, 0⟩).1.skipped = 1 := by
  refine ⟨rfl, rfl, ?_, rfl⟩
  decide

/-- C3 (amended): for a target whose file already exists in the content
store with leading bytes equal to the PDF magic header, `download_one`
performs no network fetch and no hash re-verification, and mutates
nothing except the run's skipped counter — in particular it does not
change the document's download status at all (so it does not mark it
`completed`). -/
theorem C3_dedup_skips_without_status_change (net : String → Option Bytes)
    (hashFn : Bytes → String) (pdf : PdfInfo) (st : DlState) (content : Bytes)
    (hfile : lookupFile st.files pdf.filename = some content)
    (hmagic : content.take 5 = pdfMagic) :
    download_one net hashFn pdf st =
      ({ st with skipped := st.skipped + 1 }, false) := by
  unfold download_one
  rw [hfile]
  dsimp only
  rw [if_pos hmagic]

/-- Witness for C3_dedup_skips_without_status_change at a concrete stored
PDF file. -/
theorem C3_dedup_skips_without_status_change_witness :
    download_one (fun _ => none) (fun _ => "h") ⟨"a.pdf", "u", "t"⟩
        ⟨[("a.pdf", [37, 80, 68, 70, 45, 1])],
         [⟨"a.pdf", "t", "u", "pending", "", 0⟩], 0, 0, 0⟩ =
      ({ files := [("a.pdf", [37, 80, 68, 70, 45, 1])],
         docs := [⟨"a.pdf", "t", "u", "pending", "", 0⟩],
         skipped := 1, downloaded := 0, failed := 0 }, false) :=
  C3_dedup_skips_without_status_change (fun _ => none) (fun _ => "h")
    ⟨"a.pdf", "u", "t"⟩
    ⟨[("a.pdf", [37, 80, 68, 70, 45, 1])],
     [⟨"a.pdf", "t", "u", "pending", "", 0⟩], 0, 0, 0⟩
    [37, 80, 68, 70, 45, 1] rfl rfl

end Downloader
